import Mathlib

/-!
Verification model of the `edstell/lambda-invoker` Go package (`invoker.go`).

The package wraps the AWS lambda invocation API: an `Invoker` holds a
transport (`LambdaInvoker`), a target `arn`, and two ordered lists of
mutators applied around a transport call.  `AsProcedure` installs one input
mutator (wrap the payload in a `router.Request` JSON envelope) and one
output mutator (unwrap a `router.Response` envelope, extracting a body or a
typed error).

Modelling choices, fixed throughout:
* A Go byte slice holding JSON (`json.RawMessage`) is modelled symbolically
  by `Bytes`: either `valid v` — the serialization of a JSON value `v` —
  or `invalid s` — bytes `s` that are not valid JSON (the empty byte slice
  is `invalid ""`).  A nil-able `json.RawMessage` is `Option Bytes`, with
  `none` for the nil slice.
* Go `error` values are modelled by the inductive `GoErr`; `tagged n`
  stands for an arbitrary caller-supplied error value.
* `Invoke` returns the pair `(payload, err)` exactly as the Go function
  returns `(json.RawMessage, error)`; every `return nil, err` in the source
  becomes `(none, some err)`.
-/

set_option autoImplicit false

namespace LambdaInvoker

mutual

/-- A JSON value, as produced by decoding bytes into a Go `interface\x7b\x7d`
(numbers restricted to integers, which suffices for every claim). -/
inductive Json where
  | null : Json
  | bool (b : Bool) : Json
  | num (n : Int) : Json
  | str (s : String) : Json
  | arr (xs : JsonList) : Json
  | obj (fields : JsonFields) : Json
  deriving Repr, DecidableEq

/-- The elements of a JSON array. -/
inductive JsonList where
  | nil : JsonList
  | cons (hd : Json) (tl : JsonList) : JsonList
  deriving Repr, DecidableEq

/-- The key/value fields of a JSON object, in wire order. -/
inductive JsonFields where
  | nil : JsonFields
  | cons (key : String) (val : Json) (tl : JsonFields) : JsonFields
  deriving Repr, DecidableEq

end

mutual

/-- Model of `fmt.Sprint` applied to the result of decoding JSON into a Go
`interface\x7b\x7d`: the human-readable (Go `fmt`-style) rendering of the value. -/
def Json.render : Json → String
  | .null => "<nil>"
  | .bool true => "true"
  | .bool false => "false"
  | .num n => toString n
  | .str s => s
  | .arr xs => "[" ++ JsonList.render xs ++ "]"
  | .obj fields => "map[" ++ JsonFields.render fields ++ "]"

def JsonList.render : JsonList → String
  | .nil => ""
  | .cons x .nil => Json.render x
  | .cons x xs => Json.render x ++ " " ++ JsonList.render xs

def JsonFields.render : JsonFields → String
  | .nil => ""
  | .cons k v .nil => k ++ ":" ++ Json.render v
  | .cons k v fs => k ++ ":" ++ Json.render v ++ " " ++ JsonFields.render fs

end

mutual

/-- Model of the serialized (wire) form of a JSON value: the byte string a
Go `json.Marshal` of the value produces (string escaping elided). -/
def Json.serialize : Json → String
  | .null => "null"
  | .bool true => "true"
  | .bool false => "false"
  | .num n => toString n
  | .str s => "\"" ++ s ++ "\""
  | .arr xs => "[" ++ JsonList.serialize xs ++ "]"
  | .obj fields => "\x7b" ++ JsonFields.serialize fields ++ "\x7d"

def JsonList.serialize : JsonList → String
  | .nil => ""
  | .cons x .nil => Json.serialize x
  | .cons x xs => Json.serialize x ++ "," ++ JsonList.serialize xs

def JsonFields.serialize : JsonFields → String
  | .nil => ""
  | .cons k v .nil => "\"" ++ k ++ "\":" ++ Json.serialize v
  | .cons k v fs => "\"" ++ k ++ "\":" ++ Json.serialize v ++ "," ++ JsonFields.serialize fs

end

/-- The value of the last field named `key` (Go's `encoding/json` keeps the
last of duplicate keys), or `none` when the field is absent. -/
def JsonFields.lookupLast (key : String) : JsonFields → Option Json
  | .nil => none
  | .cons k v tl =>
    match JsonFields.lookupLast key tl with
    | some r => some r
    | none => if k = key then some v else none

/-- A non-nil Go byte slice viewed as candidate JSON: `valid v` are bytes
that parse as the JSON value `v`; `invalid s` are bytes `s` that are not
valid JSON (e.g. the empty slice is `invalid ""`). -/
inductive Bytes where
  | valid (v : Json) : Bytes
  | invalid (s : String) : Bytes
  deriving Repr, DecidableEq

/-- Model of the Go conversion `string(b)` on the bytes. -/
def Bytes.asString : Bytes → String
  | .valid v => v.serialize
  | .invalid s => s

/-- A nil-able `json.RawMessage`: `none` is the nil byte slice. -/
abbrev RawMessage := Option Bytes

/-- `Error` from `invoker.go`: wraps an error message (the embedded
`error`, built with `errors.New(*message)`) with a status code. -/
structure Error where
  msg : String
  StatusCode : Int
  deriving Repr, DecidableEq

/-- A Go `error` value as it can flow through this package: `str s` is
`errors.New(s)`; `jsonErr s` is a failure returned by `encoding/json`
(carrying the offending input rendered as a string); `invocation e` is the
package's `*Error`; `tagged n` stands for an arbitrary distinct error value
produced by caller-supplied code (mutators, transports, unmarshalers). -/
inductive GoErr where
  | str (s : String) : GoErr
  | jsonErr (s : String) : GoErr
  | invocation (e : Error) : GoErr
  | tagged (n : Nat) : GoErr
  deriving Repr, DecidableEq

/-- The fields of `lambda.InvokeInput` this package reads or writes. -/
structure InvokeInput where
  FunctionName : Option String
  InvocationType : Option String
  Payload : RawMessage
  deriving Repr, DecidableEq

/-- The fields of `lambda.InvokeOutput` this package reads or writes. -/
structure InvokeOutput where
  Payload : RawMessage
  FunctionError : Option String
  StatusCode : Option Int
  deriving Repr, DecidableEq

/-- The `LambdaInvoker` interface: one operation from request to response
or transport failure (the `context.Context` argument, a pass-through this
package never inspects, is elided). -/
abbrev LambdaInvokerFn := InvokeInput → Except GoErr InvokeOutput

/-- `Invoker` from `invoker.go`. -/
structure Invoker where
  li : LambdaInvokerFn
  arn : String
  InputMutators : List (InvokeInput → Except GoErr InvokeInput)
  OutputMutators : List (InvokeOutput → Except GoErr InvokeOutput)

/-- `Option` from `invoker.go`: mutates the `Invoker` under construction
(modelled as a function on the record). -/
abbrev InvokerOption := Invoker → Invoker

/-- `New` from `invoker.go`: build the bare invoker, then apply each
option in order. -/
def New (li : LambdaInvokerFn) (arn : String) (opts : List InvokerOption) : Invoker :=
  opts.foldl (fun invoker opt => opt invoker) { li := li, arn := arn, InputMutators := [], OutputMutators := [] }

/-- The default `lambda.InvokeInput` built at the top of `Invoke`. -/
def defaultInput (arn : String) (body : RawMessage) : InvokeInput :=
  { FunctionName := some arn, InvocationType := some "RequestResponse", Payload := body }

/-- The mutator loops of `Invoke`: apply each mutator in list order to the
value produced by the previous one, returning the first failure. -/
def runChain {α : Type} (ms : List (α → Except GoErr α)) (x : α) : Except GoErr α :=
  match ms with
  | [] => .ok x
  | m :: rest =>
    match m x with
    | .error e => .error e
    | .ok y => runChain rest y

/-- `Invoker.Invoke` from `invoker.go`, returning the Go pair
`(json.RawMessage, error)` as `(RawMessage × Option GoErr)`. -/
def Invoker.invoke (i : Invoker) (body : RawMessage) : RawMessage × Option GoErr :=
  let input := defaultInput i.arn body
  match runChain i.InputMutators input with
  | .error err => (none, some err)
  | .ok input =>
    match i.li input with
    | .error err => (none, some err)
    | .ok output =>
      match runChain i.OutputMutators output with
      | .error err => (none, some err)
      | .ok output =>
        match output.FunctionError with
        | some message =>
          (none, some (.invocation { msg := message, StatusCode := output.StatusCode.getD (-1) }))
        | none => (output.Payload, none)

/-- Modelled from the spec: the inbound Procedure Envelope `router.Response`
of the external `lambda-router` dependency — a JSON object with optional
raw fields `body` and `error`. -/
structure RouterResponse where
  Body : RawMessage
  Error : RawMessage
  deriving Repr, DecidableEq

/-- Modelled from the spec: `json.Marshal(router.Request\x7bProcedure: p,
Body: body\x7d)` — serialize the outbound Procedure Envelope, a JSON object
with fields `procedure` (string) and `body` (the raw payload; a nil raw
payload serializes as JSON `null`).  Marshaling fails when the raw body is
not valid JSON. -/
def marshalRequest (procedure : String) (body : RawMessage) : Except GoErr Bytes :=
  match body with
  | none =>
    .ok (.valid (.obj (.cons "procedure" (.str procedure) (.cons "body" .null .nil))))
  | some (.valid v) =>
    .ok (.valid (.obj (.cons "procedure" (.str procedure) (.cons "body" v .nil))))
  | some (.invalid s) => .error (.jsonErr s)

/-- Modelled from the spec: `json.Unmarshal(payload, &router.Response\x7b\x7d)` —
parse bytes as the inbound Procedure Envelope.  Bytes that are not valid
JSON, or whose value is neither an object nor `null`, fail; an object
yields the raw sub-values of its `body` and `error` fields (`none` when
the field is absent). -/
def unmarshalResponse (b : Bytes) : Except GoErr RouterResponse :=
  match b with
  | .invalid s => .error (.jsonErr s)
  | .valid .null => .ok { Body := none, Error := none }
  | .valid (.obj fields) =>
    .ok { Body := (fields.lookupLast "body").map .valid
          Error := (fields.lookupLast "error").map .valid }
  | .valid v => .error (.jsonErr v.serialize)

/-- Model of `json.Unmarshal(e, &i)` for `var i interface\x7b\x7d`: a generic
decode, succeeding on exactly the valid-JSON byte strings. -/
def unmarshalInterface (e : RawMessage) : Except GoErr Json :=
  match e with
  | some (.valid v) => .ok v
  | some (.invalid s) => .error (.jsonErr s)
  | none => .error (.jsonErr "")

/-- The default `unmarshalError` installed by `AsProcedure` when the caller
passes nil: generic-decode the bytes; on success the error is
`errors.New(fmt.Sprint(i))`, on failure it is `errors.New(string(e))`. -/
def defaultUnmarshalError (e : RawMessage) : GoErr :=
  match unmarshalInterface e with
  | .ok i => .str i.render
  | .error _ => .str ((e.map Bytes.asString).getD "")

/-- The input mutator `AsProcedure` appends: marshal a `router.Request`
wrapping the current payload and store it as the new payload. -/
def asProcedureInputMutator (procedure : String) (input : InvokeInput) :
    Except GoErr InvokeInput :=
  match marshalRequest procedure input.Payload with
  | .error err => .error err
  | .ok bytes => .ok { input with Payload := some bytes }

/-- The output mutator `AsProcedure` appends: a nil payload is returned
unchanged; otherwise the payload is parsed as a `router.Response`; a parse
failure is returned as the mutator's error; a response without `error`
replaces the payload with the response body; a response with `error` fails
with `unmarshalError` applied to that field's bytes. -/
def asProcedureOutputMutator (unmarshalError : RawMessage → GoErr)
    (output : InvokeOutput) : Except GoErr InvokeOutput :=
  match output.Payload with
  | none => .ok output
  | some payload =>
    match unmarshalResponse payload with
    | .error err => .error err
    | .ok rsp =>
      match rsp.Error with
      | none => .ok { output with Payload := rsp.Body }
      | some e => .error (unmarshalError (some e))

/-- `AsProcedure` from `invoker.go`: default the error unmarshaler when the
caller passes nil (`none`), then append one input and one output mutator. -/
def AsProcedure (procedure : String) (unmarshalError : Option (RawMessage → GoErr)) :
    InvokerOption :=
  let ue := unmarshalError.getD defaultUnmarshalError
  fun i =>
    { i with
      InputMutators := i.InputMutators ++ [asProcedureInputMutator procedure]
      OutputMutators := i.OutputMutators ++ [asProcedureOutputMutator ue] }

/-- `Invoker.Invoke` re-embedded in a state monad over the receiver, to
express what the method does to the `Invoker` itself: every access to the
receiver is a read of the threaded state, and the method performs no
write. -/
def Invoker.invokeM (body : RawMessage) : StateM Invoker (RawMessage × Option GoErr) := do
  let i ← get
  let input := defaultInput i.arn body
  match runChain i.InputMutators input with
  | .error err => return (none, some err)
  | .ok input =>
    match i.li input with
    | .error err => return (none, some err)
    | .ok output =>
      match runChain i.OutputMutators output with
      | .error err => return (none, some err)
      | .ok output =>
        match output.FunctionError with
        | some message =>
          return (none, some (.invocation { msg := message, StatusCode := output.StatusCode.getD (-1) }))
        | none => return (output.Payload, none)

/-- A transport as Go types it: `(*lambda.InvokeOutput, error)`, where the
returned pointer may be nil (`none`) even on success. -/
abbrev NilTransport := InvokeInput → Except GoErr (Option InvokeOutput)

/-- An output mutator as Go types it: from a possibly-nil response pointer
to a possibly-nil response pointer or an error. -/
abbrev NilOutputMutator := Option InvokeOutput → Except GoErr (Option InvokeOutput)

/-- `Invoker.Invoke` re-embedded with nil response pointers explicit: the
overall result is `none` exactly when the Go code would dereference a nil
`*lambda.InvokeOutput` at `output.FunctionError` (the `FunctionError` and
`StatusCode` field pointers are nil-checked by the source and so never
dereferenced unguarded). -/
def invokeNil (li : NilTransport) (arn : String)
    (inputMutators : List (InvokeInput → Except GoErr InvokeInput))
    (outputMutators : List NilOutputMutator) (body : RawMessage) :
    Option (RawMessage × Option GoErr) :=
  let input := defaultInput arn body
  match runChain inputMutators input with
  | .error err => some (none, some err)
  | .ok input =>
    match li input with
    | .error err => some (none, some err)
    | .ok output =>
      match runChain outputMutators output with
      | .error err => some (none, some err)
      | .ok output =>
        match output with
        | none => none
        | some output =>
          match output.FunctionError with
          | some message =>
            some (none, some (.invocation { msg := message, StatusCode := output.StatusCode.getD (-1) }))
          | none => some (output.Payload, none)

/-- Sequencing law of the mutator loop: running a concatenation of chains
runs the first chain, and on success feeds its result to the second. -/
theorem runChain_append {α : Type} (ms1 ms2 : List (α → Except GoErr α)) (x : α) :
    runChain (ms1 ++ ms2) x
      = match runChain ms1 x with
        | .error e => .error e
        | .ok y => runChain ms2 y := by
  induction ms1 generalizing x with
  | nil => rfl
  | cons m rest ih =>
    simp only [List.cons_append, runChain]
    cases m x with
    | error e => rfl
    | ok y => exact ih y

/-- A value produced by a successful chain run is either the initial value
(empty chain) or the successful output of one of the chain's mutators. -/
theorem runChain_ok_source {α : Type} (ms : List (α → Except GoErr α)) (x y : α)
    (h : runChain ms x = .ok y) : y = x ∨ ∃ m ∈ ms, ∃ z, m z = .ok y := by
  induction ms generalizing x with
  | nil =>
    left
    exact (Except.ok.inj h).symm
  | cons m rest ih =>
    unfold runChain at h
    cases hm : m x with
    | error e => rw [hm] at h; exact absurd h (by simp)
    | ok z =>
      rw [hm] at h
      rcases ih z h with h1 | ⟨m', hm', w, hw⟩
      · exact Or.inr ⟨m, by simp, x, by rw [hm, h1]⟩
      · exact Or.inr ⟨m', by simp [hm'], w, hw⟩

/-- C1 (counterexample): the claim also asserts the no-op case for an
*empty* (but present) payload, yet on a response whose payload is the empty
byte slice the output mutator installed by `AsProcedure` does not return
the response unchanged without error — it returns a JSON parse failure. -/
theorem c1_empty_payload_cex :
    asProcedureOutputMutator defaultUnmarshalError
        { Payload := some (.invalid ""), FunctionError := none, StatusCode := none }
      ≠ .ok { Payload := some (.invalid ""), FunctionError := none, StatusCode := none } ∧
    asProcedureOutputMutator defaultUnmarshalError
        { Payload := some (.invalid ""), FunctionError := none, StatusCode := none }
      = .error (.jsonErr "") := by
  refine ⟨fun h => ?_, rfl⟩
  rw [show asProcedureOutputMutator defaultUnmarshalError
        { Payload := some (.invalid ""), FunctionError := none, StatusCode := none }
      = .error (.jsonErr "") from rfl] at h
  exact Except.noConfusion h

/-- C1 (amended: the no-op case requires the payload to be absent — a nil
byte slice — not merely empty): the output mutator installed by
`AsProcedure` returns a nil-payload response unchanged with no error;
returns a parse failure of the payload verbatim as its error; on a parsed
envelope without `error` replaces the payload with the envelope body and
succeeds; and on a parsed envelope with `error` fails with the configured
unmarshaling function applied to that field's bytes. -/
theorem c1_output_mutator_spec :
    (∀ (p : String) (ue : RawMessage → GoErr) (inv : Invoker),
      (AsProcedure p (some ue) inv).OutputMutators
        = inv.OutputMutators ++ [asProcedureOutputMutator ue]) ∧
    (∀ (ue : RawMessage → GoErr) (out : InvokeOutput),
      out.Payload = none → asProcedureOutputMutator ue out = .ok out) ∧
    (∀ (ue : RawMessage → GoErr) (out : InvokeOutput) (b : Bytes) (e : GoErr),
      out.Payload = some b → unmarshalResponse b = .error e →
      asProcedureOutputMutator ue out = .error e) ∧
    (∀ (ue : RawMessage → GoErr) (out : InvokeOutput) (b : Bytes) (rsp : RouterResponse),
      out.Payload = some b → unmarshalResponse b = .ok rsp → rsp.Error = none →
      asProcedureOutputMutator ue out = .ok { out with Payload := rsp.Body }) ∧
    (∀ (ue : RawMessage → GoErr) (out : InvokeOutput) (b : Bytes) (rsp : RouterResponse) (e : Bytes),
      out.Payload = some b → unmarshalResponse b = .ok rsp → rsp.Error = some e →
      asProcedureOutputMutator ue out = .error (ue (some e))) := by
  refine ⟨fun p ue inv => rfl, fun ue out h => ?_, fun ue out b e h1 h2 => ?_,
    fun ue out b rsp h1 h2 h3 => ?_, fun ue out b rsp e h1 h2 h3 => ?_⟩ <;>
    simp [asProcedureOutputMutator, *]

/-- C1 (witness): the amended theorem applied on a concrete envelope whose
`error` field is set. -/
theorem c1_output_mutator_spec_witness :
    asProcedureOutputMutator defaultUnmarshalError
        { Payload := some (.valid (.obj (.cons "error" (.str "boom") .nil)))
          FunctionError := none, StatusCode := none }
      = .error (defaultUnmarshalError (some (.valid (.str "boom")))) :=
  c1_output_mutator_spec.2.2.2.2 defaultUnmarshalError
    { Payload := some (.valid (.obj (.cons "error" (.str "boom") .nil)))
      FunctionError := none, StatusCode := none }
    (.valid (.obj (.cons "error" (.str "boom") .nil)))
    { Body := none, Error := some (.valid (.str "boom")) }
    (.valid (.str "boom")) rfl rfl rfl

/-- C2: whenever the input chain, the transport and the whole output chain
succeed and the resulting response carries `FunctionError` message `M`,
`Invoke` returns a nil payload and an `Error` whose text is `M` and whose
status code is the response's status code, or `-1` when absent. -/
theorem c2_function_error (inv : Invoker) (body : RawMessage)
    (input : InvokeInput) (output0 output : InvokeOutput) (M : String)
    (hin : runChain inv.InputMutators (defaultInput inv.arn body) = .ok input)
    (hli : inv.li input = .ok output0)
    (hout : runChain inv.OutputMutators output0 = .ok output)
    (hfe : output.FunctionError = some M) :
    inv.invoke body
      = (none, some (.invocation
          { msg := M
            StatusCode := match output.StatusCode with | some S => S | none => -1 })) := by
  unfold Invoker.invoke
  simp only [hin, hli, hout, hfe]
  cases output.StatusCode <;> rfl

/-- C2 (witness): a transport double returning `FunctionError`
"invocation failed" with status code 401. -/
theorem c2_function_error_witness :
    (New (fun _ => .ok { Payload := none, FunctionError := some "invocation failed", StatusCode := some 401 })
        "arn" []).invoke none
      = (none, some (.invocation { msg := "invocation failed", StatusCode := 401 })) :=
  c2_function_error _ none (defaultInput "arn" none)
    { Payload := none, FunctionError := some "invocation failed", StatusCode := some 401 }
    { Payload := none, FunctionError := some "invocation failed", StatusCode := some 401 }
    "invocation failed" rfl rfl rfl rfl

/-- C3: input mutators run in registration order, each on the previous
mutator's output (sequencing law of the chain), and a failing input mutator
makes `Invoke` return that error verbatim with a nil payload, for every
transport — in particular the transport call's outcome never enters the
result, so neither it nor the rest of the chain runs. -/
theorem c3_input_chain_order_and_abort :
    (∀ (ms1 ms2 : List (InvokeInput → Except GoErr InvokeInput)) (x y : InvokeInput),
      runChain ms1 x = .ok y → runChain (ms1 ++ ms2) x = runChain ms2 y) ∧
    (∀ (ms1 ms2 : List (InvokeInput → Except GoErr InvokeInput)) (x : InvokeInput) (e : GoErr),
      runChain ms1 x = .error e → runChain (ms1 ++ ms2) x = .error e) ∧
    (∀ (inv : Invoker) (body : RawMessage) (e : GoErr),
      runChain inv.InputMutators (defaultInput inv.arn body) = .error e →
      ∀ (li : LambdaInvokerFn),
        Invoker.invoke { inv with li := li } body = (none, some e)) := by
  refine ⟨fun ms1 ms2 x y h => ?_, fun ms1 ms2 x e h => ?_, fun inv body e h li => ?_⟩
  · rw [runChain_append, h]
  · rw [runChain_append, h]
  · unfold Invoker.invoke
    simp only at h ⊢
    simp [h]

/-- C3 (witness): a failing first input mutator aborts with its own error
even when the transport and a later mutator would fail differently. -/
theorem c3_input_chain_order_and_abort_witness :
    Invoker.invoke
        { li := fun _ => .error (.tagged 99), arn := "arn"
          InputMutators := [fun _ => .error (.tagged 7), fun i => .ok i]
          OutputMutators := [] } none
      = (none, some (.tagged 7)) :=
  c3_input_chain_order_and_abort.2.2
    { li := fun _ => .error (.tagged 99), arn := "arn"
      InputMutators := [fun _ => .error (.tagged 7), fun i => .ok i]
      OutputMutators := [] }
    none (.tagged 7) rfl (fun _ => .error (.tagged 99))

/-- C4: with no mutators registered and a transport echoing the request
payload into the response payload without a `FunctionError`, `Invoke`
returns exactly the payload it was given and a nil error. -/
theorem c4_echo_roundtrip (arn : String) (body : RawMessage) :
    (New (fun input => .ok { Payload := input.Payload, FunctionError := none, StatusCode := none })
        arn []).invoke body
      = (body, none) := rfl

/-- C5 (counterexample): the claim forbids a nil payload together with a
nil error, yet a transport whose response has no payload and no
`FunctionError` makes `Invoke` return both a nil payload and a nil error. -/
theorem c5_nil_nil_cex :
    (New (fun _ => .ok { Payload := none, FunctionError := none, StatusCode := none }) "arn" []).invoke none
      = (none, none) := rfl

/-- C5 (amended: `Invoke` never returns both a payload and an error — on
every error path the payload is nil — but it can return a nil payload with
a nil error, when the final response's payload is absent). -/
theorem c5_never_both (inv : Invoker) (body : RawMessage) :
    (inv.invoke body).1 = none ∨ (inv.invoke body).2 = none := by
  unfold Invoker.invoke
  dsimp only
  repeat' split
  all_goals first | exact Or.inl rfl | exact Or.inr rfl

/-- C6: `AsProcedure` with a nil unmarshaling function installs the
default, which generic-decodes the error bytes: on decode success the
error text is the human-readable rendering of the decoded value, and on
decode failure the error text is the raw bytes verbatim. -/
theorem c6_default_unmarshal_error :
    (∀ (p : String) (inv : Invoker),
      (AsProcedure p none inv).OutputMutators
        = inv.OutputMutators ++ [asProcedureOutputMutator defaultUnmarshalError]) ∧
    (∀ (v : Json),
      unmarshalInterface (some (.valid v)) = .ok v ∧
      defaultUnmarshalError (some (.valid v)) = .str v.render) ∧
    (∀ (s : String),
      unmarshalInterface (some (.invalid s)) = .error (.jsonErr s) ∧
      defaultUnmarshalError (some (.invalid s)) = .str ((Bytes.invalid s).asString)) :=
  ⟨fun _p _inv => rfl, fun _v => ⟨rfl, rfl⟩, fun _s => ⟨rfl, rfl⟩⟩

/-- C7: `AsProcedure` appends an input mutator that replaces the request
payload with the serialized outbound envelope — object with field
`procedure` set to the configured identifier and field `body` set to the
original payload (JSON `null` when the payload is nil) — leaving every
other request field unchanged (the record-update form keeps `FunctionName`
and `InvocationType`). -/
theorem c7_input_mutator_wraps :
    (∀ (p : String) (ue : Option (RawMessage → GoErr)) (inv : Invoker),
      (AsProcedure p ue inv).InputMutators
        = inv.InputMutators ++ [asProcedureInputMutator p]) ∧
    (∀ (p : String) (input : InvokeInput) (v : Json),
      input.Payload = some (.valid v) →
      asProcedureInputMutator p input
        = .ok { input with
                Payload := some (.valid (.obj (.cons "procedure" (.str p) (.cons "body" v .nil)))) }) ∧
    (∀ (p : String) (input : InvokeInput),
      input.Payload = none →
      asProcedureInputMutator p input
        = .ok { input with
                Payload := some (.valid (.obj (.cons "procedure" (.str p) (.cons "body" .null .nil)))) }) := by
  refine ⟨fun p ue inv => rfl, fun p input v h => ?_, fun p input h => ?_⟩ <;>
    simp [asProcedureInputMutator, marshalRequest, h]

/-- C7 (witness): wrapping a concrete string payload for procedure "Do". -/
theorem c7_input_mutator_wraps_witness :
    asProcedureInputMutator "Do" (defaultInput "arn" (some (.valid (.str "req"))))
      = .ok { FunctionName := some "arn", InvocationType := some "RequestResponse"
              Payload := some (.valid (.obj (.cons "procedure" (.str "Do") (.cons "body" (.str "req") .nil)))) } :=
  c7_input_mutator_wraps.2.1 "Do" (defaultInput "arn" (some (.valid (.str "req")))) (.str "req") rfl

/-- C8: when the transport call itself fails, `Invoke` returns that
failure verbatim with a nil payload, for every output-mutator list — in
particular the output mutators never enter the result, so they do not
run. -/
theorem c8_transport_error_verbatim (inv : Invoker) (body : RawMessage)
    (input : InvokeInput) (e : GoErr)
    (hin : runChain inv.InputMutators (defaultInput inv.arn body) = .ok input)
    (hli : inv.li input = .error e) :
    ∀ (oms : List (InvokeOutput → Except GoErr InvokeOutput)),
      Invoker.invoke { inv with OutputMutators := oms } body = (none, some e) := by
  intro oms
  unfold Invoker.invoke
  simp only at hin hli ⊢
  simp [hin, hli]

/-- C8 (witness): a failing transport's error is returned even though the
registered output mutator would fail with a different error if it ran. -/
theorem c8_transport_error_verbatim_witness :
    Invoker.invoke
        { li := fun _ => .error (.tagged 3), arn := "arn", InputMutators := []
          OutputMutators := [fun _ => .error (.tagged 9)] } none
      = (none, some (.tagged 3)) :=
  c8_transport_error_verbatim
    { li := fun _ => .error (.tagged 3), arn := "arn", InputMutators := [], OutputMutators := [] }
    none (defaultInput "arn" none) (.tagged 3) rfl rfl [fun _ => .error (.tagged 9)]

/-- C9: the `Invoke` method, re-embedded with its receiver threaded as
state, returns the same result as the pure model and leaves the receiver
exactly as it was — `Invoke` writes no field of the `Invoker`; and `New`
produces the invoker obtained by applying the options in order, so
applying one more option to a `New`-built invoker is the same as passing
it to `New` last. -/
theorem c9_invoker_immutable :
    (∀ (inv : Invoker) (body : RawMessage),
      (Invoker.invokeM body).run inv = (inv.invoke body, inv)) ∧
    (∀ (li : LambdaInvokerFn) (arn : String) (opts : List InvokerOption) (opt : InvokerOption),
      New li arn (opts ++ [opt]) = opt (New li arn opts)) := by
  constructor
  · intro inv body
    unfold Invoker.invokeM Invoker.invoke
    dsimp only [StateT.run, bind, StateT.bind, get, getThe, MonadStateOf.get, StateT.get,
      pure, StateT.pure]
    cases runChain inv.InputMutators (defaultInput inv.arn body) with
    | error e => rfl
    | ok input =>
      dsimp only
      cases inv.li input with
      | error e => rfl
      | ok output =>
        dsimp only
        cases runChain inv.OutputMutators output with
        | error e => rfl
        | ok output2 =>
          dsimp only
          cases output2.FunctionError <;> rfl
  · intro li arn opts opt
    simp [New]

/-- C10: whenever the transport returns a non-nil response on success and
every output mutator returns a non-nil response on success, the nil-aware
re-embedding of `Invoke` never hits the unguarded dereference of the
response (its result is never the `none` marking a nil dereference); and
without that precondition, a transport succeeding with a nil response
makes `Invoke` dereference nil when reading `FunctionError`. -/
theorem c10_nil_response_safety
    (li : NilTransport) (arn : String)
    (ims : List (InvokeInput → Except GoErr InvokeInput))
    (oms : List NilOutputMutator) (body : RawMessage)
    (hli : ∀ (input : InvokeInput) (o : Option InvokeOutput), li input = .ok o → o.isSome = true)
    (hm : ∀ m ∈ oms, ∀ (x o : Option InvokeOutput), m x = .ok o → o.isSome = true) :
    (invokeNil li arn ims oms body).isSome = true ∧
    invokeNil (fun _ => .ok none) "arn" [] [] none = none := by
  refine ⟨?_, rfl⟩
  unfold invokeNil
  dsimp only
  cases runChain ims (defaultInput arn body) with
  | error e => rfl
  | ok input =>
    dsimp only
    cases h2 : li input with
    | error e => rfl
    | ok output =>
      dsimp only
      cases h3 : runChain oms output with
      | error e => rfl
      | ok output2 =>
        dsimp only
        have hs : output2.isSome = true := by
          rcases runChain_ok_source oms output output2 h3 with h | ⟨m, hmem, z, hz⟩
          · exact h ▸ hli input output h2
          · exact hm m hmem z output2 hz
        cases output2 with
        | none => exact absurd hs (by simp)
        | some o =>
          dsimp only
          cases o.FunctionError <;> rfl

/-- C10 (witness): the safety theorem applied to a transport double that
always returns a (non-nil) echo response, with no mutators registered. -/
theorem c10_nil_response_safety_witness :
    (invokeNil
        (fun input => .ok (some { Payload := input.Payload, FunctionError := none, StatusCode := none }))
        "arn" [] [] none).isSome = true ∧
    invokeNil (fun _ => .ok none) "arn" [] [] none = none :=
  c10_nil_response_safety _ "arn" [] [] none
    (fun _input o h => by injection h with h2; rw [← h2]; rfl)
    (fun m hmem => absurd hmem (List.not_mem_nil m))

end LambdaInvoker
